import Mathlib

/-!
Verification development for the MortgagePros DJ backend.

Shallow embedding of:
- the per-session playback synchronization service
  (`src/unnamed/part_000`, `PlaybackService` together with
  `computeProgressMs`): monitor registry, `ensureMonitor`,
  `requestImmediateSync`, `schedulePoll`, the reconciliation pass of
  `pollSession` and the adaptive delay `derivePollDelay`;
- the credit-gated queue mutation handlers
  (`src/backend/src/controllers/queue.controller.ts`, `QueueController`):
  `add`, `remove` and `vote`.

External collaborators (queue store, credit ledger, provider client,
broadcast gateway, `Date.parse`) are modelled by outcome parameters: each
call a handler awaits is represented by an input describing whether that
call returned or threw, and the embedding records which ledger/provider
calls were attempted.  JavaScript string truthiness (null / "" are falsy)
is modelled by `truthyStr`; `x ?? y` on nullable values by `Option.orElse`.
-/

namespace MortgageDJ

/-! ## Playback service constants (src/unnamed/part_000, lines 175-177) -/

def DEFAULT_POLL_INTERVAL_MS : Int := 5000

def MIN_POLL_INTERVAL_MS : Int := 2000

def CONTENT_REQUEST_TIMEOUT_MS : Int := 15000

/-- JavaScript truthiness of a `string | null` value: `null` and `""` are falsy. -/
def truthyStr : Option String → Bool
  | none => false
  | some s => !(s == "")

/-! ## Now-playing payload (src/unnamed/part_001, SoundtrackNowPlaying; fields
the playback service reads) -/

structure NowPlayingTrack where
  id : String
  durationMs : Option Int
deriving DecidableEq, Repr

structure NowPlaying where
  startedAt : Option String
  state : Option String
  track : Option NowPlayingTrack
deriving DecidableEq, Repr

/-- Embeds `computeProgressMs` (src/unnamed/part_000, lines 202-226).
`dateParse` stands for `Date.parse` (`none` = `NaN`), `now` for `Date.now()`. -/
def computeProgressMs (dateParse : String → Option Int) (now : Int)
    (nowPlaying : Option NowPlaying) : Option Int :=
  match nowPlaying with
  | none => none
  | some np =>
    match np.startedAt with
    | none => none
    | some s =>
      if s == "" then none
      else
        match dateParse s with
        | none => none
        | some startedAtMs =>
          let progress := now - startedAtMs
          if progress < 0 then some 0
          else
            match np.track.bind (·.durationMs) with
            | some duration => if 0 < duration then some (min progress duration) else some progress
            | none => some progress

/-- Embeds `derivePollDelay` (src/unnamed/part_000, lines 298-309). -/
def derivePollDelay (dateParse : String → Option Int) (now : Int)
    (nowPlaying : Option NowPlaying) : Int :=
  let progress := computeProgressMs dateParse now nowPlaying
  let duration := nowPlaying.bind (fun np => np.track.bind (·.durationMs))
  match nowPlaying, progress, duration with
  | some np, some p, some d =>
    if np.state = some "PLAYING" ∧ 0 < d then
      let remaining := max 0 (d - p)
      let bufferMs : Int := 2500
      max MIN_POLL_INTERVAL_MS (min DEFAULT_POLL_INTERVAL_MS (remaining + bufferMs))
    else DEFAULT_POLL_INTERVAL_MS
  | _, _, _ => DEFAULT_POLL_INTERVAL_MS

/-! ## Monitor state and registry (src/unnamed/part_000, MonitorState and
`PlaybackService.monitors`).  The `timeout` field models the pending timer
handle by the delay it was armed with (`none` = no pending timer). -/

structure MonitorState where
  hostId : String
  soundZoneId : Option String
  timeout : Option Int
  processing : Bool
  currentTrackId : Option String
  awaitingTrackId : Option String
  requestIssuedAt : Option Int
deriving DecidableEq, Repr

/-- The `Map<string, MonitorState>` registry, as an association list whose
keys are unique (a JS `Map` holds one entry per key). -/
abbrev Monitors := List (String × MonitorState)

def findMonitor : Monitors → String → Option MonitorState
  | [], _ => none
  | (k, v) :: rest, sid => if k = sid then some v else findMonitor rest sid

/-- `Map.set`: replace the entry for the key, or append a new one. -/
def setMonitor : Monitors → String → MonitorState → Monitors
  | [], sid, st => [(sid, st)]
  | (k, v) :: rest, sid, st =>
    if k = sid then (sid, st) :: rest else (k, v) :: setMonitor rest sid st

def monitorKeys (ms : Monitors) : List String := ms.map Prod.fst

/-- Embeds `schedulePoll` (src/unnamed/part_000, lines 376-393): cancel any
pending timer and arm a fresh one (`setTimeout` with `Math.max(0, delayMs)`). -/
def schedulePoll (ms : Monitors) (sid : String) (delayMs : Int) : Monitors :=
  match findMonitor ms sid with
  | none => ms
  | some m => setMonitor ms sid { m with timeout := some (max 0 delayMs) }

/-- Embeds `ensureMonitor` (src/unnamed/part_000, lines 315-338).
`cfgDefaultZone` stands for `config.soundtrack.defaultSoundZone`. -/
def ensureMonitor (ms : Monitors) (sid hostId : String) (soundZoneId : Option String)
    (cfgDefaultZone : Option String) : Monitors :=
  match findMonitor ms sid with
  | some existing =>
    let upd := { existing with
      hostId := hostId
      soundZoneId := soundZoneId <|> existing.soundZoneId }
    let ms1 := setMonitor ms sid upd
    if existing.timeout = none ∧ existing.processing = false then
      schedulePoll ms1 sid 0
    else ms1
  | none =>
    let ms1 := setMonitor ms sid {
      hostId := hostId
      soundZoneId := soundZoneId <|> cfgDefaultZone
      timeout := none
      processing := false
      currentTrackId := none
      awaitingTrackId := none
      requestIssuedAt := none }
    schedulePoll ms1 sid 0

/-- Embeds `requestImmediateSync` (src/unnamed/part_000, lines 362-374). -/
def requestImmediateSync (ms : Monitors) (sid : String) (delayMs : Int) : Monitors :=
  match findMonitor ms sid with
  | none => ms
  | some m => if m.processing then ms else schedulePoll ms sid delayMs

/-! ## One reconciliation pass (src/unnamed/part_000, `pollSession`,
lines 395-496).  The three cursor fields the pass mutates are grouped in
`MonitorCore`; the external calls of the pass are driven by `PassInputs`:
`nowPlaying` is what `getNowPlaying` returned, `nextUp` is
`getQueueWithNext(...).nextUp` (`some tid` = an item whose `spotifyTrackId`
is `tid`), `retryOk`/`assignOk`/`fallbackOk` say whether the corresponding
`setSoundZoneContent` + `play` call pair succeeded (their failures are
caught and logged locally), `now` is `Date.now()`. -/

structure MonitorCore where
  currentTrackId : Option String
  awaitingTrackId : Option String
  requestIssuedAt : Option Int
deriving DecidableEq, Repr

structure PassInputs where
  nowPlaying : Option NowPlaying
  nextUp : Option (Option String)
  defaultContentId : Option String
  now : Int
  retryOk : Bool
  assignOk : Bool
  fallbackOk : Bool
deriving DecidableEq, Repr

/-- What the pass did: which track it asked the store to mark played, and
which provider content assignments it attempted / installed. -/
structure ReconcileLog where
  markedPlayed : Option String
  retryAttempted : Bool
  forwardAttempted : Bool
  forwardIssued : Bool
  fallbackAttempted : Bool
  fallbackIssued : Bool
deriving DecidableEq, Repr

/-- `nowPlaying?.track?.id ?? null` (src/unnamed/part_000, line 418). -/
def observedTrackId (nowPlaying : Option NowPlaying) : Option String :=
  nowPlaying.bind (fun np => np.track.map (·.id))

/-- Assignment confirmation (src/unnamed/part_000, lines 420-424): if the
observed track equals the pending assignment, adopt it as current and clear
the pending pair. -/
def confirmStep (m : MonitorCore) (observed : Option String) : MonitorCore :=
  if truthyStr m.awaitingTrackId && m.awaitingTrackId == observed then
    { currentTrackId := m.awaitingTrackId
      awaitingTrackId := none
      requestIssuedAt := none }
  else m

/-- Transition detection (src/unnamed/part_000, lines 426-434): mark the
previously believed track played when the observation changed, else adopt
the observation when no belief was held; returns the track to mark. -/
def transitionStep (m : MonitorCore) (observed : Option String) :
    MonitorCore × Option String :=
  if truthyStr m.currentTrackId && !(m.currentTrackId == observed) then
    ({ m with currentTrackId := observed }, m.currentTrackId)
  else if !(truthyStr m.currentTrackId) then
    ({ m with currentTrackId := observed }, none)
  else (m, none)

/-- Stuck-assignment retry (src/unnamed/part_000, lines 438-450): re-issue
the provider calls when the pending assignment stayed unconfirmed past the
timeout; a provider failure is caught, leaving `requestIssuedAt` untouched. -/
def retryStep (m : MonitorCore) (observed : Option String) (now : Int)
    (retryOk : Bool) : MonitorCore × Bool :=
  let shouldRetry :=
    truthyStr m.awaitingTrackId
    && (!(truthyStr observed) || !(observed == m.awaitingTrackId))
    && (!(m.requestIssuedAt == none)
        && decide (CONTENT_REQUEST_TIMEOUT_MS < now - m.requestIssuedAt.getD 0))
  if shouldRetry && retryOk then ({ m with requestIssuedAt := some now }, shouldRetry)
  else (m, shouldRetry)

/-- Forward assignment / fallback content (src/unnamed/part_000, lines
452-477): an `if / else if` chain, so the two are mutually exclusive; a
provider failure is caught before the pending pair is installed.  Returns
(state, forwardAttempted, forwardIssued, fallbackAttempted, fallbackIssued). -/
def assignStep (m : MonitorCore) (observed : Option String)
    (nextUp : Option (Option String)) (defaultContentId : Option String)
    (now : Int) (assignOk fallbackOk : Bool) :
    MonitorCore × Bool × Bool × Bool × Bool :=
  match nextUp with
  | some tid =>
    if truthyStr tid then
      if !(observed == tid) && !(m.awaitingTrackId == tid) then
        if assignOk then
          ({ m with awaitingTrackId := tid, requestIssuedAt := some now },
           true, true, false, false)
        else (m, true, false, false, false)
      else (m, false, false, false, false)
    else (m, false, false, false, false)
  | none =>
    if !(truthyStr observed) && truthyStr defaultContentId then
      if !(m.awaitingTrackId == defaultContentId) then
        if fallbackOk then
          ({ m with awaitingTrackId := defaultContentId, requestIssuedAt := some now },
           false, false, true, true)
        else (m, false, false, true, false)
      else (m, false, false, false, false)
    else (m, false, false, false, false)

/-- The body of one reconciliation pass over the cursor fields
(src/unnamed/part_000, lines 418-477): assignment confirmation, transition
detection, stuck-assignment retry, forward assignment / fallback content. -/
def reconcile (m : MonitorCore) (inp : PassInputs) : MonitorCore × ReconcileLog :=
  let observed := observedTrackId inp.nowPlaying
  let m1 := confirmStep m observed
  let s2 := transitionStep m1 observed
  let s3 := retryStep s2.1 observed inp.now inp.retryOk
  let s4 := assignStep s3.1 observed inp.nextUp inp.defaultContentId inp.now
    inp.assignOk inp.fallbackOk
  (s4.1,
   { markedPlayed := s2.2
     retryAttempted := s3.2
     forwardAttempted := s4.2.1
     forwardIssued := s4.2.2.1
     fallbackAttempted := s4.2.2.2.1
     fallbackIssued := s4.2.2.2.2 })

/-- What `pollSession` logged and scheduled. -/
structure PollLog where
  zoneWarned : Bool
  passErrorLogged : Bool
  passRan : Bool
  scheduledDelay : Option Int
deriving DecidableEq, Repr

/-- Embeds `pollSession` (src/unnamed/part_000, lines 395-496).  `ioSet`
models `this.io !== null`.  `pass` drives the `try` block: `.ok inp` means
every awaited call that is not locally caught returned (inputs `inp`);
`.error partial_` means some call in the `try` block threw after the cursor
fields had been mutated to `partial_` (any exception point of the pass is an
instance), landing in the `catch` that logs and re-arms with the default
interval.  The `finally` clears `processing` in both cases. -/
def pollSession (dateParse : String → Option Int) (ms : Monitors) (sid : String)
    (ioSet : Bool) (pass : Except MonitorCore PassInputs) : Monitors × PollLog :=
  match findMonitor ms sid with
  | none => (ms, ⟨false, false, false, none⟩)
  | some m =>
    if m.processing then (ms, ⟨false, false, false, none⟩)
    else if !ioSet then (ms, ⟨false, false, false, none⟩)
    else if !(truthyStr m.soundZoneId) then
      (schedulePoll ms sid DEFAULT_POLL_INTERVAL_MS,
       ⟨true, false, false, some DEFAULT_POLL_INTERVAL_MS⟩)
    else
      match pass with
      | .error partial_ =>
        let ms2 := setMonitor ms sid { m with
          processing := true
          currentTrackId := partial_.currentTrackId
          awaitingTrackId := partial_.awaitingTrackId
          requestIssuedAt := partial_.requestIssuedAt }
        let ms3 := schedulePoll ms2 sid DEFAULT_POLL_INTERVAL_MS
        let ms4 :=
          match findMonitor ms3 sid with
          | some mm => setMonitor ms3 sid { mm with processing := false }
          | none => ms3
        (ms4, ⟨false, true, true, some DEFAULT_POLL_INTERVAL_MS⟩)
      | .ok inp =>
        let r := reconcile ⟨m.currentTrackId, m.awaitingTrackId, m.requestIssuedAt⟩ inp
        let nextDelay := derivePollDelay dateParse inp.now inp.nowPlaying
        let ms2 := setMonitor ms sid { m with
          processing := true
          currentTrackId := r.1.currentTrackId
          awaitingTrackId := r.1.awaitingTrackId
          requestIssuedAt := r.1.requestIssuedAt }
        let ms3 := schedulePoll ms2 sid nextDelay
        let ms4 :=
          match findMonitor ms3 sid with
          | some mm => setMonitor ms3 sid { mm with processing := false }
          | none => ms3
        (ms4, ⟨false, false, true, some nextDelay⟩)

/-! ## Queue controller (src/backend/src/controllers/queue.controller.ts).

The credit service (`src/backend/src/services/credit.service.ts`) is not in
the staged sources; only its call sites are.  Its operations are modelled as
outcome parameters (`Outcome` below), and every `spendCredits` /
`addCredits` call a handler attempts is recorded as an `(identity, amount)`
pair in the handler's output, so ledger-protocol claims are statements about
those lists. -/

/-- Result of an awaited external call: it returned a value or threw. -/
inductive Outcome (ε α : Type)
  | fail (e : ε)
  | ok (a : α)
deriving DecidableEq, Repr

/-- Modelled from the spec: `GUEST_TRACK_COST` is exported by
`credit.service.ts`, which is not among the staged sources.  Spec §8 has a
guest "spend 1 credit to add track T1"; the claims do not depend on the
value, only on the same amount being spent and refunded. -/
def GUEST_TRACK_COST : Int := 1

/-- Modelled from the spec: `VOTE_REACTION_COST` is exported by
`credit.service.ts` (not staged); spec §8 has "one credit debited" per
added reaction.  The claims depend only on spend/refund symmetry. -/
def VOTE_REACTION_COST : Int := 1

/-- An error thrown by the credit service: `CreditError` carries an HTTP
status and message (queue.controller.ts checks `error instanceof
CreditError`); anything else is a generic error with a message. -/
inductive SpendErr
  | creditErr (status : Nat) (message : String)
  | otherErr (message : String)
deriving DecidableEq, Repr

inductive Role
  | host
  | guest
deriving DecidableEq, Repr

/-- The HTTP response a handler sends: a success payload (with the optional
credit-state snapshot it relays) or `res.status(n).json({error})`. -/
inductive HttpResponse
  | ok (credits : Option Int)
  | err (status : Nat) (message : String)
deriving DecidableEq, Repr

def isOkResp : HttpResponse → Bool
  | .ok _ => true
  | .err _ _ => false

/-! ### `QueueController.add` (queue.controller.ts, lines 68-193) -/

/-- Inputs of one `add` request: the request validation facts and the
outcome of each awaited call, in source order. -/
structure AddReq where
  contentPresent : Bool
  trackIdNamePresent : Bool
  explicit : Bool
  allowExplicit : Option Bool
  context : Outcome String Role
  clerkUserId : Option String
  spendResult : Outcome SpendErr Int
  addToQueueResult : Outcome String Unit
  emitResult : Outcome String Unit
  refundResult : Outcome String Int
deriving DecidableEq, Repr

structure AddOut where
  response : HttpResponse
  spends : List (String × Int)
  queueWriteAttempted : Bool
  refunds : List (String × Int)
  refundFailureLogged : Bool
deriving DecidableEq, Repr

def emptyAdd (resp : HttpResponse) : AddOut :=
  { response := resp
    spends := []
    queueWriteAttempted := false
    refunds := []
    refundFailureLogged := false }

/-- The `catch` block of `add` (lines 172-192) reached with a non-CreditError
`msg` thrown after the spend bookkeeping `spent` was (maybe) recorded:
refund once if a spend was recorded, log (not propagate) a refund failure,
answer 400 for a duplicate track and 500 otherwise. -/
def addCatch (r : AddReq) (spends : List (String × Int)) (spent : Option (String × Int))
    (msg : String) (wrote : Bool) : AddOut :=
  let resp := HttpResponse.err (if msg == "Track already in queue" then 400 else 500) msg
  match spent with
  | none =>
    { response := resp
      spends := spends
      queueWriteAttempted := wrote
      refunds := []
      refundFailureLogged := false }
  | some p =>
    { response := resp
      spends := spends
      queueWriteAttempted := wrote
      refunds := [p]
      refundFailureLogged := match r.refundResult with | .fail _ => true | .ok _ => false }

/-- `add` after the (possible) guest spend succeeded: the queue write, the
broadcast refresh and the success payload (lines 140-171). -/
def addAfterSpend (r : AddReq) (spends : List (String × Int))
    (spent : Option (String × Int)) (credits : Option Int) : AddOut :=
  match r.addToQueueResult with
  | .fail msg => addCatch r spends spent msg true
  | .ok _ =>
    match r.emitResult with
    | .fail msg => addCatch r spends spent msg true
    | .ok _ =>
      { response := .ok credits
        spends := spends
        queueWriteAttempted := true
        refunds := []
        refundFailureLogged := false }

/-- Embeds `QueueController.add` (queue.controller.ts, lines 68-193).  The
`ensureMonitor` / `requestImmediateSync` side effects on the playback
registry are the separate functions above; this model covers the
credit/queue protocol and the response. -/
def addHandler (r : AddReq) : AddOut :=
  if !r.contentPresent then emptyAdd (.err 400 "Track content is required")
  else if !r.trackIdNamePresent then emptyAdd (.err 400 "Track id and name are required")
  else
    match r.context with
    | .fail e =>
      emptyAdd (.err (if e == "Session not found or inactive" then 404 else 401) e)
    | .ok role =>
      if !(r.allowExplicit.getD true) && r.explicit then
        emptyAdd (.err 400 "Explicit tracks are disabled for this session")
      else
        match role with
        | .host => addAfterSpend r [] none none
        | .guest =>
          match r.clerkUserId with
          | none => emptyAdd (.err 401 "Not authenticated")
          | some uid =>
            match r.spendResult with
            | .fail (.creditErr st msg) =>
              { response := .err st msg
                spends := [(uid, GUEST_TRACK_COST)]
                queueWriteAttempted := false
                refunds := []
                refundFailureLogged := false }
            | .fail (.otherErr msg) =>
              { response := .err (if msg == "Track already in queue" then 400 else 500) msg
                spends := [(uid, GUEST_TRACK_COST)]
                queueWriteAttempted := false
                refunds := []
                refundFailureLogged := false }
            | .ok credits =>
              addAfterSpend r [(uid, GUEST_TRACK_COST)]
                (some (uid, GUEST_TRACK_COST)) (some credits)

/-! ### `QueueController.vote` (queue.controller.ts, lines 279-372).

The Queue Store's `vote(queueItemId, actor, voteType, {beforeChange})`
(spec §6) decides an intent, calls `beforeChange(intent)` before
committing — a throw there aborts the whole vote — then commits and
reports the completed action. -/

/-- `intent.action` as seen by the `beforeChange` callback. -/
inductive IntentAction
  | add
  | remove
  | change
deriving DecidableEq, Repr

/-- `result.action` reported by the completed vote. -/
inductive ResultAction
  | added
  | removed
  | changed
deriving DecidableEq, Repr

structure VoteReq where
  voteType : Int
  itemFound : Bool
  context : Outcome String Role
  authUserId : Option String
  guestClerkId : Outcome String (Option String)
  intent : IntentAction
  spendResult : Outcome SpendErr Int
  commitResult : Outcome String ResultAction
  removedCreditResult : Outcome String Int
  compRefundResult : Outcome String Int
  emitResult : Outcome String Unit
deriving DecidableEq, Repr

/-- `spends` records every `spendCredits` call attempted, `credits` every
`addCredits` call attempted (removal refunds and error compensation). -/
structure VoteOut where
  response : HttpResponse
  spends : List (String × Int)
  credits : List (String × Int)
  refundFailureLogged : Bool
deriving DecidableEq, Repr

/-- Resolution of the acting ledger identity (lines 305-313): the host uses
`req.auth?.userId`; a guest is looked up for their `clerkUserId` (the lookup
may itself throw). -/
def resolveVoteClerk (role : Role) (authUserId : Option String)
    (guestClerkId : Outcome String (Option String)) : Outcome String (Option String) :=
  match role with
  | .host => .ok authUserId
  | .guest => guestClerkId

/-- `vote` after the store committed and the removal refund (if any) was
issued: `spentVoteCredits` is cleared, the refreshed state is emitted and
the payload sent (lines 337-352). -/
def voteFinish (r : VoteReq) (spends credits : List (String × Int))
    (acred : Option Int) : VoteOut :=
  match r.emitResult with
  | .fail _ =>
    { response := .err 500 "Failed to vote"
      spends := spends
      credits := credits
      refundFailureLogged := false }
  | .ok _ =>
    { response := .ok acred
      spends := spends
      credits := credits
      refundFailureLogged := false }

/-- `vote` once `beforeChange` has run: the store commit, the
removal refund, and the `catch` that compensates a recorded spend
(lines 315-371). -/
def voteAfterCharge (r : VoteReq) (clerkUserId : Option String)
    (spent : Option (String × Int)) (acred0 : Option Int) : VoteOut :=
  let spends := match spent with | some p => [p] | none => []
  match r.commitResult with
  | .fail _ =>
    match spent with
    | some p =>
      { response := .err 500 "Failed to vote"
        spends := spends
        credits := [p]
        refundFailureLogged := match r.compRefundResult with | .fail _ => true | .ok _ => false }
    | none =>
      { response := .err 500 "Failed to vote"
        spends := spends
        credits := []
        refundFailureLogged := false }
  | .ok action =>
    if action == ResultAction.removed && truthyStr clerkUserId then
      let uid := clerkUserId.getD ""
      match r.removedCreditResult with
      | .fail _ =>
        match spent with
        | some p =>
          { response := .err 500 "Failed to vote"
            spends := spends
            credits := [(uid, VOTE_REACTION_COST), p]
            refundFailureLogged := match r.compRefundResult with | .fail _ => true | .ok _ => false }
        | none =>
          { response := .err 500 "Failed to vote"
            spends := spends
            credits := [(uid, VOTE_REACTION_COST)]
            refundFailureLogged := false }
      | .ok v =>
        let acred := if clerkUserId == r.authUserId then some v else acred0
        voteFinish r spends [(uid, VOTE_REACTION_COST)] acred
    else voteFinish r spends [] acred0

/-- Embeds `QueueController.vote` (queue.controller.ts, lines 279-372). -/
def voteHandler (r : VoteReq) : VoteOut :=
  if !(r.voteType == 1 || r.voteType == -1) then
    { response := .err 400 "Vote type must be 1 or -1"
      spends := [], credits := [], refundFailureLogged := false }
  else if !r.itemFound then
    { response := .err 404 "Queue item not found"
      spends := [], credits := [], refundFailureLogged := false }
  else
    match r.context with
    | .fail e =>
      { response := .err (if e == "Session not found or inactive" then 404 else 401) e
        spends := [], credits := [], refundFailureLogged := false }
    | .ok role =>
      match resolveVoteClerk role r.authUserId r.guestClerkId with
      | .fail _ =>
        { response := .err 500 "Failed to vote"
          spends := [], credits := [], refundFailureLogged := false }
      | .ok clerkUserId =>
        if !(truthyStr clerkUserId) || !(r.intent == IntentAction.add) then
          voteAfterCharge r clerkUserId none none
        else
          let uid := clerkUserId.getD ""
          match r.spendResult with
          | .fail (.creditErr st msg) =>
            { response := .err st msg
              spends := [(uid, VOTE_REACTION_COST)]
              credits := [], refundFailureLogged := false }
          | .fail (.otherErr _) =>
            { response := .err 500 "Failed to vote"
              spends := [(uid, VOTE_REACTION_COST)]
              credits := [], refundFailureLogged := false }
          | .ok v =>
            let acred := if clerkUserId == r.authUserId then some v else none
            voteAfterCharge r clerkUserId (some (uid, VOTE_REACTION_COST)) acred

/-! ### `QueueController.remove` (queue.controller.ts, lines 211-277) -/

structure RemoveReq where
  itemFound : Bool
  context : Outcome String Role
  removeResult : Outcome String Unit
  addedByGuestClerk : Option String
  addedByGuestId : Option String
  guestLookup : Outcome String (Option String)
  authUserId : Option String
  refundResult : Outcome String Int
  emitResult : Outcome String Unit
deriving DecidableEq, Repr

structure RemoveOut where
  response : HttpResponse
  credits : List (String × Int)
  refundFailureLogged : Bool
  lookupFailureLogged : Bool
deriving DecidableEq, Repr

/-- Resolution of the adder's ledger identity (lines 233-242):
`addedByGuest?.clerkUserId ?? null`, falling back to a guest-record lookup
whose failure is logged and leaves the identity unresolved. -/
def resolveRefundClerk (r : RemoveReq) : Option String × Bool :=
  if !(truthyStr r.addedByGuestClerk) && r.addedByGuestId.isSome then
    match r.guestLookup with
    | .ok v => (v, false)
    | .fail _ => (r.addedByGuestClerk, true)
  else (r.addedByGuestClerk, false)

/-- The tail of `remove`: broadcast refresh and response (lines 255-276). -/
def removeFinish (r : RemoveReq) (credits : List (String × Int))
    (rlog lklog : Bool) (acred : Option Int) : RemoveOut :=
  match r.emitResult with
  | .fail msg =>
    { response := .err (if msg == "Not authorized to remove this track" then 403 else 500) msg
      credits := credits
      refundFailureLogged := rlog
      lookupFailureLogged := lklog }
  | .ok _ =>
    { response := .ok acred
      credits := credits
      refundFailureLogged := rlog
      lookupFailureLogged := lklog }

/-- Embeds `QueueController.remove` (queue.controller.ts, lines 211-277). -/
def removeHandler (r : RemoveReq) : RemoveOut :=
  if !r.itemFound then
    { response := .err 404 "Queue item not found"
      credits := [], refundFailureLogged := false, lookupFailureLogged := false }
  else
    match r.context with
    | .fail e =>
      { response := .err (if e == "Session not found or inactive" then 404 else 403) e
        credits := [], refundFailureLogged := false, lookupFailureLogged := false }
    | .ok _ =>
      match r.removeResult with
      | .fail msg =>
        { response := .err (if msg == "Not authorized to remove this track" then 403 else 500) msg
          credits := [], refundFailureLogged := false, lookupFailureLogged := false }
      | .ok _ =>
        let rc := resolveRefundClerk r
        if truthyStr rc.1 then
          let uid := rc.1.getD ""
          match r.refundResult with
          | .fail _ =>
            removeFinish r [(uid, GUEST_TRACK_COST)] true rc.2 none
          | .ok v =>
            let acred :=
              if truthyStr r.authUserId && (r.authUserId == rc.1) then some v else none
            removeFinish r [(uid, GUEST_TRACK_COST)] false rc.2 acred
        else removeFinish r [] false rc.2 none

/-! ## Registry lemmas -/

theorem find_set_self (ms : Monitors) (sid : String) (st : MonitorState) :
    findMonitor (setMonitor ms sid st) sid = some st := by
  induction ms with
  | nil => simp [setMonitor, findMonitor]
  | cons hd tl ih =>
    obtain ⟨k, v⟩ := hd
    by_cases h : k = sid
    · simp [setMonitor, findMonitor, h]
    · simp [setMonitor, findMonitor, h, ih]

theorem find_set_ne (ms : Monitors) (sid k : String) (st : MonitorState)
    (h : k ≠ sid) : findMonitor (setMonitor ms sid st) k = findMonitor ms k := by
  induction ms with
  | nil => simp [setMonitor, findMonitor, Ne.symm h]
  | cons hd tl ih =>
    obtain ⟨k', v⟩ := hd
    by_cases h' : k' = sid
    · subst h'
      simp [setMonitor, findMonitor, Ne.symm h]
    · simp only [setMonitor, if_neg h']
      by_cases h'' : k' = k
      · simp [findMonitor, h'']
      · simp [findMonitor, h'', ih]

theorem keys_set_present (ms : Monitors) (sid : String) (st m : MonitorState)
    (h : findMonitor ms sid = some m) :
    monitorKeys (setMonitor ms sid st) = monitorKeys ms := by
  induction ms with
  | nil => simp [findMonitor] at h
  | cons hd tl ih =>
    obtain ⟨k, v⟩ := hd
    by_cases h' : k = sid
    · simp [setMonitor, monitorKeys, h']
    · simp only [findMonitor, if_neg h'] at h
      simp [setMonitor, monitorKeys, h', ih h]
      exact ih h

theorem keys_set_absent (ms : Monitors) (sid : String) (st : MonitorState)
    (h : findMonitor ms sid = none) :
    monitorKeys (setMonitor ms sid st) = monitorKeys ms ++ [sid] := by
  induction ms with
  | nil => simp [setMonitor, monitorKeys]
  | cons hd tl ih =>
    obtain ⟨k, v⟩ := hd
    by_cases h' : k = sid
    · simp [findMonitor, h'] at h
    · simp only [findMonitor, if_neg h'] at h
      simp [setMonitor, monitorKeys, h'] at ih ⊢
      exact ih h

theorem set_found_eq (ms : Monitors) (sid : String) (m : MonitorState)
    (h : findMonitor ms sid = some m) : setMonitor ms sid m = ms := by
  induction ms with
  | nil => simp [findMonitor] at h
  | cons hd tl ih =>
    obtain ⟨k, v⟩ := hd
    by_cases h' : k = sid
    · subst h'
      simp [findMonitor] at h
      simp [setMonitor, h]
    · simp only [findMonitor, if_neg h'] at h
      simp [setMonitor, h', ih h]

theorem set_set (ms : Monitors) (sid : String) (st st' : MonitorState) :
    setMonitor (setMonitor ms sid st) sid st' = setMonitor ms sid st' := by
  induction ms with
  | nil => simp [setMonitor]
  | cons hd tl ih =>
    obtain ⟨k, v⟩ := hd
    by_cases h : k = sid
    · simp [setMonitor, h]
    · simp [setMonitor, h, ih]

theorem orElse_self (a b : Option String) : (a <|> (a <|> b)) = (a <|> b) := by
  cases a <;> rfl

/-- `ensureMonitor` on an absent session appends one fresh entry and arms a
zero-delay tick on it. -/
theorem ensure_absent (ms : Monitors) (sid hostId : String) (zid cfg : Option String)
    (h : findMonitor ms sid = none) :
    ensureMonitor ms sid hostId zid cfg =
      setMonitor ms sid
        { hostId := hostId, soundZoneId := zid <|> cfg, timeout := some 0,
          processing := false, currentTrackId := none, awaitingTrackId := none,
          requestIssuedAt := none } := by
  simp only [ensureMonitor, h]
  simp only [schedulePoll, find_set_self, set_set]
  norm_num

/-- `ensureMonitor` on a present session rewrites that entry in place:
`hostId` is overwritten, `soundZoneId` only when a zone was passed, and the
timer is armed at zero exactly when none was pending and no pass ran. -/
theorem ensure_present (ms : Monitors) (sid hostId : String) (zid cfg : Option String)
    (m : MonitorState) (h : findMonitor ms sid = some m) :
    ensureMonitor ms sid hostId zid cfg =
      setMonitor ms sid
        { m with
          hostId := hostId
          soundZoneId := zid <|> m.soundZoneId
          timeout := if m.timeout = none ∧ m.processing = false then some 0
                     else m.timeout } := by
  simp only [ensureMonitor, h]
  by_cases hc : m.timeout = none ∧ m.processing = false
  · simp only [if_pos hc, schedulePoll, find_set_self, set_set]
    norm_num
  · simp only [if_neg hc]

/-- Claim C4: `ensure(sessionId, hostId, zoneId)` is idempotent and a session
has at most one live monitor state: if no monitor exists for the session,
exactly one entry is created (an immediate zero-delay tick armed on it); if
one exists, no duplicate is created (the key set is unchanged), its
`hostId`/`soundZoneId` are updated, and an immediate tick is armed if and
only if no timer is pending and no pass is in progress. -/
theorem ensureMonitor_idempotent_unique (ms : Monitors) (sid hostId : String)
    (zid cfg : Option String) :
    ensureMonitor (ensureMonitor ms sid hostId zid cfg) sid hostId zid cfg
      = ensureMonitor ms sid hostId zid cfg
    ∧ (match findMonitor ms sid with
       | none =>
         monitorKeys (ensureMonitor ms sid hostId zid cfg) = monitorKeys ms ++ [sid]
         ∧ findMonitor (ensureMonitor ms sid hostId zid cfg) sid = some
             { hostId := hostId, soundZoneId := zid <|> cfg, timeout := some 0,
               processing := false, currentTrackId := none, awaitingTrackId := none,
               requestIssuedAt := none }
       | some m =>
         monitorKeys (ensureMonitor ms sid hostId zid cfg) = monitorKeys ms
         ∧ findMonitor (ensureMonitor ms sid hostId zid cfg) sid = some
             { m with
               hostId := hostId
               soundZoneId := zid <|> m.soundZoneId
               timeout := if m.timeout = none ∧ m.processing = false then some 0
                          else m.timeout }) := by
  cases h : findMonitor ms sid with
  | none =>
    rw [ensure_absent ms sid hostId zid cfg h]
    refine ⟨?_, ?_, ?_⟩
    · rw [ensure_present _ sid hostId zid cfg _ (find_set_self ms sid _), set_set]
      simp [orElse_self]
    · exact keys_set_absent ms sid _ h
    · exact find_set_self ms sid _
  | some m =>
    rw [ensure_present ms sid hostId zid cfg m h]
    refine ⟨?_, ?_, ?_⟩
    · rw [ensure_present _ sid hostId zid cfg _ (find_set_self ms sid _), set_set]
      by_cases hc : m.timeout = none ∧ m.processing = false
      · simp [hc, orElse_self]
      · simp only [if_neg hc]
        have : ¬ (({ m with
            hostId := hostId
            soundZoneId := zid <|> m.soundZoneId
            timeout := m.timeout } : MonitorState).timeout = none
            ∧ ({ m with
            hostId := hostId
            soundZoneId := zid <|> m.soundZoneId
            timeout := m.timeout } : MonitorState).processing = false) := hc
        simp [this, orElse_self]
    · exact keys_set_present ms sid _ m h
    · exact find_set_self ms sid _

/-- Claim C9: `requestImmediate(sessionId, delay)` re-arms the session's
timer — replacing any previously pending one, so at most one remains (the
`timeout` slot is overwritten in place and the key set never grows) — if and
only if a monitor exists and no pass is in progress; with no monitor or a
running pass it is a silent no-op returning the registry unchanged. -/
theorem requestImmediate_rearm_iff (ms : Monitors) (sid : String) (d : Int) :
    (requestImmediateSync ms sid d =
      match findMonitor ms sid with
      | none => ms
      | some m =>
        if m.processing then ms
        else setMonitor ms sid { m with timeout := some (max 0 d) })
    ∧ monitorKeys (requestImmediateSync ms sid d) = monitorKeys ms := by
  cases h : findMonitor ms sid with
  | none => simp [requestImmediateSync, h]
  | some m =>
    by_cases hp : m.processing
    · simp [requestImmediateSync, h, hp]
    · constructor
      · simp [requestImmediateSync, schedulePoll, h, hp]
      · simp only [requestImmediateSync, h, if_neg hp, schedulePoll]
        exact keys_set_present ms sid _ m h

/-- Claim C8: a reconciliation pass whose `try` block raises an uncaught
exception (at any point, with the cursor fields left in any partial state
`pc`) logs the error and re-arms the session's timer with the default
interval before completing, leaving `processing` cleared — so a failed pass
never leaves the session without a next scheduled tick. -/
theorem pollSession_error_rearms (dateParse : String → Option Int) (ms : Monitors)
    (sid : String) (m : MonitorState) (pc : MonitorCore)
    (hf : findMonitor ms sid = some m) (hp : m.processing = false)
    (hz : truthyStr m.soundZoneId = true) :
    (pollSession dateParse ms sid true (.error pc)).2.passErrorLogged = true
    ∧ (pollSession dateParse ms sid true (.error pc)).2.scheduledDelay
        = some DEFAULT_POLL_INTERVAL_MS
    ∧ findMonitor (pollSession dateParse ms sid true (.error pc)).1 sid = some
        { m with
          processing := false
          timeout := some DEFAULT_POLL_INTERVAL_MS
          currentTrackId := pc.currentTrackId
          awaitingTrackId := pc.awaitingTrackId
          requestIssuedAt := pc.requestIssuedAt } := by
  have hmax : max 0 DEFAULT_POLL_INTERVAL_MS = DEFAULT_POLL_INTERVAL_MS := by
    simp [DEFAULT_POLL_INTERVAL_MS]
  simp only [pollSession, hf, hp, hz, Bool.not_true, Bool.not_false, if_false,
    Bool.false_eq_true, if_true, schedulePoll, find_set_self, set_set, hmax]
  exact ⟨trivial, trivial, trivial⟩

theorem confirm_spec (m : MonitorCore) (observed : Option String) :
    (confirmStep m observed).awaitingTrackId =
      (if truthyStr m.awaitingTrackId && m.awaitingTrackId == observed then none
       else m.awaitingTrackId)
    ∧ (if truthyStr m.awaitingTrackId && m.awaitingTrackId == observed then
        (confirmStep m observed).currentTrackId = observed
        ∧ (confirmStep m observed).requestIssuedAt = none
        ∧ truthyStr (confirmStep m observed).currentTrackId = true
       else confirmStep m observed = m) := by
  unfold confirmStep
  by_cases hc : (truthyStr m.awaitingTrackId && m.awaitingTrackId == observed) = true
  · have hc' := hc
    rw [Bool.and_eq_true] at hc'
    have heq : m.awaitingTrackId = observed := eq_of_beq hc'.2
    have ht : truthyStr m.awaitingTrackId = true := hc'.1
    simp [hc, ← heq, ht]
  · simp [hc]

theorem transition_frame (m : MonitorCore) (observed : Option String) :
    (transitionStep m observed).1.awaitingTrackId = m.awaitingTrackId
    ∧ (transitionStep m observed).1.requestIssuedAt = m.requestIssuedAt := by
  unfold transitionStep
  split_ifs <;> simp

theorem transition_noop (m : MonitorCore) (observed : Option String)
    (h1 : m.currentTrackId = observed) (h2 : truthyStr m.currentTrackId = true) :
    transitionStep m observed = (m, none) := by
  have h2' : truthyStr observed = true := h1 ▸ h2
  unfold transitionStep
  simp [h1, h2']

theorem retry_frame (m : MonitorCore) (observed : Option String) (now : Int)
    (retryOk : Bool) :
    (retryStep m observed now retryOk).1.awaitingTrackId = m.awaitingTrackId
    ∧ (retryStep m observed now retryOk).1.currentTrackId = m.currentTrackId := by
  simp only [retryStep]
  split_ifs <;> simp

theorem retry_noop (m : MonitorCore) (observed : Option String) (now : Int)
    (retryOk : Bool) (h : m.awaitingTrackId = none) :
    (retryStep m observed now retryOk).1 = m := by
  unfold retryStep
  simp [h, truthyStr]

theorem assign_spec (m : MonitorCore) (observed : Option String)
    (nextUp : Option (Option String)) (defaultContentId : Option String)
    (now : Int) (assignOk fallbackOk : Bool) :
    ((assignStep m observed nextUp defaultContentId now assignOk fallbackOk).2.1
      && (assignStep m observed nextUp defaultContentId now assignOk fallbackOk).2.2.2.1)
      = false
    ∧ (assignStep m observed nextUp defaultContentId now assignOk fallbackOk).1.awaitingTrackId =
        (if (assignStep m observed nextUp defaultContentId now assignOk fallbackOk).2.2.1
         then nextUp.getD none
         else if (assignStep m observed nextUp defaultContentId now assignOk fallbackOk).2.2.2.2
         then defaultContentId
         else m.awaitingTrackId)
    ∧ (assignStep m observed nextUp defaultContentId now assignOk fallbackOk).1.currentTrackId
        = m.currentTrackId
    ∧ (((assignStep m observed nextUp defaultContentId now assignOk fallbackOk).2.2.1
        || (assignStep m observed nextUp defaultContentId now assignOk fallbackOk).2.2.2.2)
          = false
       → (assignStep m observed nextUp defaultContentId now assignOk fallbackOk).1.requestIssuedAt
          = m.requestIssuedAt) := by
  rcases nextUp with _ | tid
  · cases h1 : (!(truthyStr observed) && truthyStr defaultContentId) with
    | false => simp [assignStep, h1]
    | true =>
      cases h2 : (!(m.awaitingTrackId == defaultContentId)) with
      | false => simp [assignStep, h1, h2]
      | true =>
        cases h3 : fallbackOk with
        | false => simp [assignStep, h1, h2, h3]
        | true => simp [assignStep, h1, h2, h3]
  · cases h1 : truthyStr tid with
    | false => simp [assignStep, h1]
    | true =>
      cases h2 : (!(observed == tid) && !(m.awaitingTrackId == tid)) with
      | false => simp [assignStep, h1, h2]
      | true =>
        cases h3 : assignOk with
        | false => simp [assignStep, h1, h2, h3]
        | true => simp [assignStep, h1, h2, h3]

/-- Claim C5: within a reconciliation pass the pending assignment
(`awaitingTrackId`) is cleared exactly when the observed now-playing track
equals it — and then `currentTrackId` is set to that track and, unless a new
assignment supersedes it, `requestIssuedAt` is cleared too — or overwritten
by a new forward or fallback assignment; no other step of a pass clears it,
and the forward-assignment and fallback-content steps are mutually exclusive
within one pass. -/
theorem reconcile_pending_assignment (m : MonitorCore) (inp : PassInputs) :
    ((reconcile m inp).1.awaitingTrackId =
      if (reconcile m inp).2.forwardIssued then inp.nextUp.getD none
      else if (reconcile m inp).2.fallbackIssued then inp.defaultContentId
      else if truthyStr m.awaitingTrackId
              && m.awaitingTrackId == observedTrackId inp.nowPlaying
        then none
        else m.awaitingTrackId)
    ∧ ((reconcile m inp).2.forwardAttempted && (reconcile m inp).2.fallbackAttempted) = false
    ∧ (if truthyStr m.awaitingTrackId
          && m.awaitingTrackId == observedTrackId inp.nowPlaying then
        (reconcile m inp).1.currentTrackId = observedTrackId inp.nowPlaying
        ∧ (if ((reconcile m inp).2.forwardIssued
               || (reconcile m inp).2.fallbackIssued) = false
           then (reconcile m inp).1.requestIssuedAt = none else True)
      else True) := by
  have hconf := confirm_spec m (observedTrackId inp.nowPlaying)
  simp only [reconcile]
  cases hc : (truthyStr m.awaitingTrackId
      && m.awaitingTrackId == observedTrackId inp.nowPlaying) with
  | true =>
    simp only [hc, if_true] at hconf ⊢
    obtain ⟨hA, hCur, hIss, hT⟩ := hconf
    simp only [transition_noop _ _ hCur hT, retry_noop _ _ inp.now inp.retryOk hA]
    refine ⟨?_, (assign_spec _ _ _ _ _ _ _).1, ?_, ?_⟩
    · rw [(assign_spec _ _ _ _ _ _ _).2.1, hA]
    · rw [(assign_spec _ _ _ _ _ _ _).2.2.1, hCur]
    · have h4 := (assign_spec (confirmStep m (observedTrackId inp.nowPlaying))
        (observedTrackId inp.nowPlaying) inp.nextUp inp.defaultContentId inp.now
        inp.assignOk inp.fallbackOk).2.2.2
      split
      · rw [h4 (by assumption), hIss]
      · trivial
  | false =>
    simp only [hc, Bool.false_eq_true, if_false] at hconf ⊢
    rw [hconf.2]
    refine ⟨?_, (assign_spec _ _ _ _ _ _ _).1, trivial⟩
    rw [(assign_spec _ _ _ _ _ _ _).2.1,
      (retry_frame _ _ inp.now inp.retryOk).1,
      (transition_frame _ _).1]

/-! ## Adaptive delay (claim C6) -/

/-- Follows the spec's words: clamp a value between a floor and a ceiling. -/
def clamp (lo hi x : Int) : Int := max lo (min hi x)

/-- Follows the spec's words (§4.2 adaptive delay): when the provider
reports actively playing with a known progress and a known positive track
duration, the delay is clamp(remaining-time-in-track + fixed buffer,
minimum floor, default ceiling); otherwise the default interval. -/
def adaptiveDelaySpec (dateParse : String → Option Int) (now : Int)
    (nowPlaying : Option NowPlaying) : Int :=
  match nowPlaying, computeProgressMs dateParse now nowPlaying,
        nowPlaying.bind (fun np => np.track.bind (·.durationMs)) with
  | some np, some p, some d =>
    if np.state = some "PLAYING" ∧ 0 < d then
      clamp MIN_POLL_INTERVAL_MS DEFAULT_POLL_INTERVAL_MS (max 0 (d - p) + 2500)
    else DEFAULT_POLL_INTERVAL_MS
  | _, _, _ => DEFAULT_POLL_INTERVAL_MS

/-- A concrete `Date.parse` for the spec's §8 scenario: the reported start
time parses to epoch 0 ms. -/
def scenarioParse : String → Option Int :=
  fun s => if s = "scenario-start" then some 0 else none

/-- The §8 scenario report: a playing track of duration 180000 ms that
started 170000 ms before the current wall-clock instant. -/
def scenarioNowPlaying : NowPlaying :=
  { startedAt := some "scenario-start"
    state := some "PLAYING"
    track := some { id := "scenario-track", durationMs := some 180000 } }

/-- Claim C6: the adaptive poll delay equals clamp(remaining + buffer,
floor, ceiling) exactly when the provider reports `PLAYING` with a non-null
computed progress and a known positive duration, and the default interval
otherwise; in the spec's scenario (duration 180000 ms, started 170000 ms
ago, playing) the computed delay is 5000 ms. -/
theorem derivePollDelay_spec (dateParse : String → Option Int) (now : Int)
    (nowPlaying : Option NowPlaying) :
    derivePollDelay dateParse now nowPlaying = adaptiveDelaySpec dateParse now nowPlaying
    ∧ derivePollDelay scenarioParse 170000 (some scenarioNowPlaying) = 5000 := by
  constructor
  · rfl
  · decide

/-! ## Progress computation (claim C7) -/

/-- Follows the claim's words, exactly as stated: for a report with a
parseable start time, progress is wall-clock-now minus the start time,
clamped to [0, duration] whenever the duration is known and NON-NEGATIVE,
and zero whenever the raw difference is negative. -/
def progressClaimedSpec (dateParse : String → Option Int) (now : Int)
    (nowPlaying : Option NowPlaying) : Option Int :=
  match nowPlaying with
  | none => none
  | some np =>
    match np.startedAt with
    | none => none
    | some s =>
      if s == "" then none
      else
        match dateParse s with
        | none => none
        | some startedAtMs =>
          let raw := now - startedAtMs
          match np.track.bind (·.durationMs) with
          | some d => if 0 ≤ d then some (min (max 0 raw) d) else some (max 0 raw)
          | none => some (max 0 raw)

/-- A report whose track has a known duration of 0 ms, started 500 ms before
the current instant. -/
def zeroDurationNowPlaying : NowPlaying :=
  { startedAt := some "scenario-start"
    state := some "PLAYING"
    track := some { id := "zero-duration-track", durationMs := some 0 } }

/-- Counterexample to claim C7 as stated: with a known, non-negative
duration of 0 ms and a start time 500 ms in the past, the code reports
progress 500 ms, not the claimed clamp to [0, 0] = 0. -/
theorem computeProgress_clamp_counterexample :
    computeProgressMs scenarioParse 500 (some zeroDurationNowPlaying) = some 500
    ∧ progressClaimedSpec scenarioParse 500 (some zeroDurationNowPlaying) = some 0
    ∧ computeProgressMs scenarioParse 500 (some zeroDurationNowPlaying)
        ≠ progressClaimedSpec scenarioParse 500 (some zeroDurationNowPlaying) := by
  refine ⟨by decide, by decide, by decide⟩

/-- Claim C7 as amended: for every now-playing report with a parseable
start time, the computed progress is now minus the start time clamped to
[0, duration] whenever the track duration is known and strictly POSITIVE
(with duration 0 or negative the raw non-negative difference is reported),
and is 0 — never negative — whenever now minus start is negative. -/
theorem computeProgress_amended (dateParse : String → Option Int)
    (now startedAtMs : Int) (s : String) (np : NowPlaying)
    (hs : np.startedAt = some s) (hne : (s == "") = false)
    (hp : dateParse s = some startedAtMs) :
    computeProgressMs dateParse now (some np) =
      some (match np.track.bind (·.durationMs) with
            | some d =>
              if 0 < d then min (max 0 (now - startedAtMs)) d
              else max 0 (now - startedAtMs)
            | none => max 0 (now - startedAtMs))
    ∧ 0 ≤ (computeProgressMs dateParse now (some np)).getD 0 := by
  have hmain : computeProgressMs dateParse now (some np) =
      some (match np.track.bind (·.durationMs) with
            | some d =>
              if 0 < d then min (max 0 (now - startedAtMs)) d
              else max 0 (now - startedAtMs)
            | none => max 0 (now - startedAtMs)) := by
    simp only [computeProgressMs, hs, hne, hp, Bool.false_eq_true, if_false]
    rcases hd : np.track.bind (·.durationMs) with _ | d
    · by_cases hneg : now - startedAtMs < 0
      · simp [hneg, max_eq_left (le_of_lt hneg)]
      · push_neg at hneg
        simp [if_neg (not_lt.2 hneg), max_eq_right hneg]
        omega
    · by_cases hneg : now - startedAtMs < 0
      · by_cases hdp : 0 < d
        · simp [hneg, hdp, max_eq_left (le_of_lt hneg), min_eq_left (le_of_lt hdp)]
        · simp [hneg, hdp, max_eq_left (le_of_lt hneg)]
      · push_neg at hneg
        by_cases hdp : 0 < d
        · simp [if_neg (not_lt.2 hneg), hdp, max_eq_right hneg]
          omega
        · simp [if_neg (not_lt.2 hneg), hdp, max_eq_right hneg]
          omega
  refine ⟨hmain, ?_⟩
  rw [hmain]
  rcases hd : np.track.bind (·.durationMs) with _ | d
  · simp [le_max_left]
  · by_cases hdp : 0 < d
    · simp [hdp, le_min (le_max_left 0 (now - startedAtMs)) (le_of_lt hdp)]
    · simp [hdp, le_max_left]

/-! ## Mutation-protocol theorems (claims C1, C2, C3, C10) -/

/-- Claim C1: for an `add` by a guest, the fixed track cost is spent before
the queue write — a failed spend ends the request with the ledger rejection
(its own status and message for a `CreditError`), no queue write and no
refund; a successful spend followed by a processing failure triggers exactly
one compensating credit of the same amount to the same actor — never zero,
never two — whose own failure is logged and never changes the response. -/
theorem add_guest_credit_protocol (r : AddReq) (uid : String)
    (hc : r.contentPresent = true) (ht : r.trackIdNamePresent = true)
    (hx : r.context = .ok .guest) (hu : r.clerkUserId = some uid)
    (he : (!(r.allowExplicit.getD true) && r.explicit) = false) :
    (match r.spendResult with
     | .fail e =>
       (addHandler r).spends = [(uid, GUEST_TRACK_COST)]
       ∧ (addHandler r).queueWriteAttempted = false
       ∧ (addHandler r).refunds = []
       ∧ isOkResp (addHandler r).response = false
       ∧ (match e with
          | .creditErr st msg => (addHandler r).response = .err st msg
          | .otherErr _ => True)
     | .ok _ =>
       (addHandler r).spends = [(uid, GUEST_TRACK_COST)]
       ∧ (addHandler r).queueWriteAttempted = true
       ∧ (match r.addToQueueResult, r.emitResult with
          | .ok _, .ok _ =>
            (addHandler r).refunds = [] ∧ isOkResp (addHandler r).response = true
          | _, _ =>
            (addHandler r).refunds = [(uid, GUEST_TRACK_COST)]
            ∧ isOkResp (addHandler r).response = false
            ∧ (addHandler r).refundFailureLogged =
                (match r.refundResult with | .fail _ => true | .ok _ => false)
            ∧ (addHandler r).response
                = (addHandler { r with refundResult := .ok 0 }).response)) := by
  rcases r with ⟨cp, tn, ex, ae, ctx, cu, sr, aq, em, rr⟩
  simp only at hc ht hx hu he
  subst hc ht hx hu
  rcases sr with e | v
  · rcases e with ⟨st, msg⟩ | msg <;>
      simp [addHandler, emptyAdd, isOkResp, he]
  · rcases aq with msg | _ <;> rcases em with msg' | _ <;>
      rcases rr with e' | v' <;>
      simp [addHandler, addAfterSpend, addCatch, emptyAdd, isOkResp, he]

def outcomeOk {ε α : Type} : Outcome ε α → Bool
  | .ok _ => true
  | .fail _ => false

/-- Net ledger movement a handler run attempts for its actor: credits minus
spends. -/
def netDelta (o : VoteOut) : Int :=
  (o.credits.map Prod.snd).sum - (o.spends.map Prod.snd).sum

/-- Spec §8 scenario, first half: a guest's first up-vote on an item; the
store decides intent `add` and reports the action `added`. -/
def voteScenarioUp : VoteReq :=
  { voteType := 1
    itemFound := true
    context := .ok .guest
    authUserId := some "guest-1"
    guestClerkId := .ok (some "guest-1")
    intent := .add
    spendResult := .ok 4
    commitResult := .ok .added
    removedCreditResult := .ok 0
    compRefundResult := .ok 0
    emitResult := .ok () }

/-- Spec §8 scenario, second half: the same guest's down-vote that the
store decides as intent `remove` and reports as `removed`. -/
def voteScenarioDown : VoteReq :=
  { voteScenarioUp with
    voteType := -1
    intent := .remove
    spendResult := .ok 0
    commitResult := .ok .removed
    removedCreditResult := .ok 5 }

/-- Claim C2: for a vote by an actor whose ledger identity resolves, the
fixed vote cost is spent inside the store's `beforeChange` callback exactly
when the decided intent is a newly added reaction (none for a removal or a
no-op change), and whenever the completed vote (one whose spend, if any,
succeeded and whose commit returned) is reported as a removal, a credit of
the same fixed amount back to that identity is attempted — so the spec's
§8 up-vote-then-removed-vote scenario leaves the ledger net zero. -/
theorem vote_charge_refund_symmetry (r : VoteReq) (role : Role) (uid : String)
    (hv : (r.voteType == 1 || r.voteType == -1) = true)
    (hf : r.itemFound = true)
    (hx : r.context = .ok role)
    (hid : resolveVoteClerk role r.authUserId r.guestClerkId = .ok (some uid))
    (hne : (uid == "") = false) :
    (voteHandler r).spends =
      (if r.intent == IntentAction.add then [(uid, VOTE_REACTION_COST)] else [])
    ∧ (if ((!(r.intent == IntentAction.add) || outcomeOk r.spendResult)
           && (match r.commitResult with
               | .ok a => a == ResultAction.removed
               | .fail _ => false)) = true
       then (uid, VOTE_REACTION_COST) ∈ (voteHandler r).credits
       else True)
    ∧ netDelta (voteHandler voteScenarioUp) + netDelta (voteHandler voteScenarioDown) = 0 := by
  refine ⟨?_, ?_, by decide⟩
  all_goals
    rcases r with ⟨vt, itf, ctx, au, gk, it, sr, cr, rc, cf, em⟩
    simp only at hv hf hx hid ⊢
    subst hf hx
    rcases it <;>
      rcases sr with e | v <;>
      try rcases e with ⟨st, msg⟩ | msg
    all_goals
      rcases cr with msg' | a <;> try rcases a
    all_goals
      rcases rc with e2 | v2 <;> rcases em with e3 | u3
    all_goals
      simp [voteHandler, voteAfterCharge, voteFinish, hv, hid, hne, truthyStr,
        outcomeOk]

/-- Claim C10 (implicit): the host is not exempt from vote-reaction
charges — a vote whose decided intent is a newly added reaction spends the
fixed vote cost from the host's resolved authenticated identity — unlike
the add-track cost, which a host `add` never spends regardless of inputs. -/
theorem host_vote_charged (r : VoteReq) (uid : String) (a : AddReq)
    (hv : (r.voteType == 1 || r.voteType == -1) = true)
    (hf : r.itemFound = true)
    (hx : r.context = .ok .host)
    (ha : r.authUserId = some uid)
    (hne : (uid == "") = false)
    (hi : r.intent = IntentAction.add)
    (hahost : a.context = .ok .host) :
    (voteHandler r).spends = [(uid, VOTE_REACTION_COST)]
    ∧ (addHandler a).spends = [] := by
  constructor
  · rcases r with ⟨vt, itf, ctx, au, gk, it, sr, cr, rc, cf, em⟩
    simp only at hv hf hx ha hi ⊢
    subst hf hx ha hi
    rcases sr with e | v <;> try rcases e with ⟨st, msg⟩ | msg
    all_goals
      rcases cr with msg' | a' <;> try rcases a'
    all_goals
      rcases rc with e2 | v2 <;> rcases em with e3 | u3
    all_goals
      simp [voteHandler, voteAfterCharge, voteFinish, resolveVoteClerk, hv, hne,
        truthyStr]
  · rcases a with ⟨cp, tn, ex, ae, ctx, cu, sr, aq, em, rr⟩
    simp only at hahost
    subst hahost
    rcases aq with msg | _ <;> rcases em with msg' | _
    all_goals
      simp only [addHandler, addAfterSpend, addCatch, emptyAdd]
    all_goals
      split_ifs <;> rfl

/-- Claim C3: removing a queued track added by a guest whose ledger identity
resolves credits the fixed track cost back to that guest once the queue
removal succeeded (and never before: a failed removal attempts no credit),
and the removal's success response is independent of the refund outcome —
a refund failure is only logged while the handler still answers success. -/
theorem remove_guest_refund (r : RemoveReq) (role : Role) (uid : String)
    (hf : r.itemFound = true)
    (hx : r.context = .ok role)
    (hid : (resolveRefundClerk r).1 = some uid)
    (hne : (uid == "") = false)
    (hem : r.emitResult = .ok ()) :
    (match r.removeResult with
     | .fail _ =>
       (removeHandler r).credits = [] ∧ isOkResp (removeHandler r).response = false
     | .ok _ =>
       (removeHandler r).credits = [(uid, GUEST_TRACK_COST)]
       ∧ isOkResp (removeHandler r).response = true
       ∧ (removeHandler r).refundFailureLogged =
           (match r.refundResult with | .fail _ => true | .ok _ => false)) := by
  rcases hrm : r.removeResult with msg | u
  · simp only [removeHandler, hf, hx, hrm, isOkResp]
    split <;> simp [isOkResp]
  · rcases hrr : r.refundResult with e | v <;>
      simp [removeHandler, removeFinish, hf, hx, hrm, hrr, hid, hne, hem,
        truthyStr, isOkResp]

/-! ## Concrete witnesses -/

/-- A guest add whose spend succeeds, whose queue write fails with the
duplicate-track conflict, and whose compensating refund itself fails. -/
def addReqWitness : AddReq :=
  { contentPresent := true
    trackIdNamePresent := true
    explicit := false
    allowExplicit := some true
    context := .ok .guest
    clerkUserId := some "guest-1"
    spendResult := .ok 3
    addToQueueResult := .fail "Track already in queue"
    emitResult := .ok ()
    refundResult := .fail "ledger down" }

theorem add_guest_credit_protocol_witness :
    (addHandler addReqWitness).spends = [("guest-1", GUEST_TRACK_COST)]
    ∧ (addHandler addReqWitness).queueWriteAttempted = true
    ∧ ((addHandler addReqWitness).refunds = [("guest-1", GUEST_TRACK_COST)]
       ∧ isOkResp (addHandler addReqWitness).response = false
       ∧ (addHandler addReqWitness).refundFailureLogged = true
       ∧ (addHandler addReqWitness).response
           = (addHandler { addReqWitness with refundResult := .ok 0 }).response) :=
  add_guest_credit_protocol addReqWitness "guest-1" rfl rfl rfl rfl rfl

theorem vote_charge_refund_symmetry_witness :
    (voteHandler voteScenarioDown).spends = []
    ∧ ("guest-1", VOTE_REACTION_COST) ∈ (voteHandler voteScenarioDown).credits
    ∧ netDelta (voteHandler voteScenarioUp) + netDelta (voteHandler voteScenarioDown) = 0 :=
  vote_charge_refund_symmetry voteScenarioDown .guest "guest-1" rfl rfl rfl rfl rfl

/-- A removal, by the host, of a track added by a guest whose ledger
identity is on the queue item; the refund fails. -/
def removeReqWitness : RemoveReq :=
  { itemFound := true
    context := .ok .host
    removeResult := .ok ()
    addedByGuestClerk := some "guest-1"
    addedByGuestId := none
    guestLookup := .ok none
    authUserId := some "host-1"
    refundResult := .fail "ledger down"
    emitResult := .ok () }

theorem remove_guest_refund_witness :
    (removeHandler removeReqWitness).credits = [("guest-1", GUEST_TRACK_COST)]
    ∧ isOkResp (removeHandler removeReqWitness).response = true
    ∧ (removeHandler removeReqWitness).refundFailureLogged = true :=
  remove_guest_refund removeReqWitness .host "guest-1" rfl rfl rfl rfl rfl

theorem computeProgress_amended_witness :
    computeProgressMs scenarioParse 170000 (some scenarioNowPlaying) = some 170000
    ∧ 0 ≤ (computeProgressMs scenarioParse 170000 (some scenarioNowPlaying)).getD 0 :=
  computeProgress_amended scenarioParse 170000 0 "scenario-start" scenarioNowPlaying
    rfl rfl rfl

def monitorWitness : MonitorState :=
  { hostId := "host-1"
    soundZoneId := some "zone-1"
    timeout := none
    processing := false
    currentTrackId := none
    awaitingTrackId := none
    requestIssuedAt := none }

def monitorsWitness : Monitors := [("session-1", monitorWitness)]

def partialCoreWitness : MonitorCore :=
  { currentTrackId := some "track-x"
    awaitingTrackId := some "track-y"
    requestIssuedAt := some 42 }

theorem pollSession_error_rearms_witness :
    (pollSession scenarioParse monitorsWitness "session-1" true
        (.error partialCoreWitness)).2.passErrorLogged = true
    ∧ (pollSession scenarioParse monitorsWitness "session-1" true
        (.error partialCoreWitness)).2.scheduledDelay = some DEFAULT_POLL_INTERVAL_MS
    ∧ findMonitor (pollSession scenarioParse monitorsWitness "session-1" true
        (.error partialCoreWitness)).1 "session-1" = some
        { monitorWitness with
          processing := false
          timeout := some DEFAULT_POLL_INTERVAL_MS
          currentTrackId := partialCoreWitness.currentTrackId
          awaitingTrackId := partialCoreWitness.awaitingTrackId
          requestIssuedAt := partialCoreWitness.requestIssuedAt } :=
  pollSession_error_rearms scenarioParse monitorsWitness "session-1" monitorWitness
    partialCoreWitness rfl rfl rfl

/-- A host's up-vote that the store decides as a newly added reaction. -/
def hostVoteWitness : VoteReq :=
  { voteType := 1
    itemFound := true
    context := .ok .host
    authUserId := some "host-1"
    guestClerkId := .ok none
    intent := .add
    spendResult := .ok 9
    commitResult := .ok .added
    removedCreditResult := .ok 0
    compRefundResult := .ok 0
    emitResult := .ok () }

/-- A host add request, which spends nothing whatever its outcomes. -/
def hostAddWitness : AddReq :=
  { contentPresent := true
    trackIdNamePresent := true
    explicit := false
    allowExplicit := some true
    context := .ok .host
    clerkUserId := some "host-1"
    spendResult := .ok 0
    addToQueueResult := .ok ()
    emitResult := .ok ()
    refundResult := .ok 0 }

theorem host_vote_charged_witness :
    (voteHandler hostVoteWitness).spends = [("host-1", VOTE_REACTION_COST)]
    ∧ (addHandler hostAddWitness).spends = [] :=
  host_vote_charged hostVoteWitness "host-1" hostAddWitness rfl rfl rfl rfl rfl rfl rfl

end MortgageDJ
